import Mathlib

/-!
Verification of the MD Awards balanced-scorecard submission and evaluation
script (`bsc.py`) against its natural-language specification.

The development shallowly embeds the pure logic of the script:
* the two scoring policies (`score_perspective` and the completion-weighted
  `evaluate_perspective`, named `_evaluate_perspective` in the source);
* the submission record and the row-locking protocol
  (`acquire_lock`, `release_lock`, `update_evaluator_vote`);
* the record store with its local-file (CSV) fallback
  (`log_submission`, `read_records`);
* the Final Results ranking aggregation (`vote_to_weight`, `finalResults`).

Modelling conventions:
* Python floats are embedded as exact rationals (`ℚ`); `round(x, 1)` and
  `round(x, 2)` are embedded as exact decimal rounding (`round1`, `round2`).
* Wall-clock instants are integers; the stored `Lock Expiry` cell (an
  ISO-8601 string in the sheet) is embedded as `Option Int`: `some t` when
  `datetime.fromisoformat` succeeds and yields the instant `t`, and `none`
  when the cell is empty or unparsable (`fromisoformat` raises).
* The random `uuid.uuid4()` token is passed in as an explicit parameter.
* Row lookup by candidate name and timestamp is abstracted away: each
  operation acts directly on the located `Record`.
-/

namespace BSC

/-- Exact embedding of rounding a rational to one decimal place, as Python
`round(x, 1)` does for the values arising here. -/
def round1 (q : ℚ) : ℚ := ((round (q * 10) : ℤ) : ℚ) / 10

/-- Exact embedding of rounding a rational to two decimal places, as Python
`round(x, 2)` does for the values arising here. -/
def round2 (q : ℚ) : ℚ := ((round (q * 100) : ℤ) : ℚ) / 100

/-- Embedding of Python `str.lower()`.  All strings the script lowercases
are ASCII, so the per-character `Char.toLower` matches Python. -/
def pyLower (s : String) : String := ⟨s.data.map Char.toLower⟩

/-- Embedding of Python `str.strip()` with no argument: remove leading and
trailing whitespace. -/
def pyStrip (s : String) : String :=
  ⟨((s.data.dropWhile Char.isWhitespace).reverse.dropWhile Char.isWhitespace).reverse⟩

/-- Substring containment on character lists: true when `needle` occurs
contiguously inside `hay`.  Embeds the Python expression `needle in hay`. -/
def listContainsSub (needle : List Char) : List Char → Bool
  | [] => needle.isEmpty
  | c :: t => needle.isPrefixOf (c :: t) || listContainsSub needle t

/-- Python `needle in hay` for strings. -/
def strIn (needle hay : String) : Bool := listContainsSub needle.data hay.data

/-- Splitting a character list on a separator character, Python style:
`split` of an empty text is `[[]]`, and adjacent separators produce empty
components. -/
def splitOnChar (sep : Char) : List Char → List (List Char)
  | [] => [[]]
  | c :: t =>
    if c = sep then [] :: splitOnChar sep t
    else
      match splitOnChar sep t with
      | [] => [[c]]
      | h :: rest => (c :: h) :: rest

/-- Embedding of Python `s.split(sep)` for a one-character separator. -/
def pySplit (s : String) (sep : Char) : List String :=
  (splitOnChar sep s.data).map fun l => ⟨l⟩

/-- Characters after the first colon, when a colon is present. -/
def afterFirstColonAux : List Char → Option (List Char)
  | [] => none
  | c :: t => if c = ':' then some t else afterFirstColonAux t

/-- Python `part.split(":", 1)` followed by taking the last component:
the text after the first colon when a colon is present, otherwise the whole
string.  Used when parsing a committee-vote entry `name:vote`. -/
def afterFirstColon (s : String) : String :=
  match afterFirstColonAux s.data with
  | some t => ⟨t⟩
  | none => s

/-- Embedding of `score_perspective(action_text, files, keywords)`
(bsc.py lines 44-74): the keyword-weighted scoring policy.  Files are
represented by their names only; the function uses just the count. -/
def score_perspective (action_text : String) (files : List String) (keywords : List String) : ℚ :=
  let text := pyLower action_text
  if text = "" then 0
  else
    let nMatches := (keywords.filter fun kw => strIn (pyLower kw) text).length
    let keyword_points : ℚ := (min nMatches 5 : ℕ) / 5 * 15
    let length_points : ℚ := (min text.length 300 : ℕ) / 300 * 10
    let score := keyword_points + length_points
    let num_files := files.length
    let score := if text.length > 200 ∧ num_files ≥ 2 then min 25 (score + 3) else score
    round1 (min 25 score)

/-- Embedding of `_evaluate_perspective(action_text, files)`
(bsc.py lines 77-98): the completion-weighted scoring policy. -/
def evaluate_perspective (action_text : String) (files : List String) : ℤ :=
  let text := pyStrip action_text
  let pts : ℤ :=
    (if text ≠ "" then 10 else 0) + (if text.length > 150 then 10 else 0)
      + (if files.length ≥ 2 then 5 else 0)
  min 25 pts

/-- A submission record: one row of the `MD Awards Voting` sheet (or of the
CSV fallback), restricted to the fields the verified operations touch.
`lockExpiry` embeds the stored `Lock Expiry` string as explained in the
module docstring. -/
structure Record where
  name : String := ""
  timestamp : String := ""
  totalScore : ℚ := 0
  financialScore : ℚ := 0
  customerScore : ℚ := 0
  internalScore : ℚ := 0
  learningScore : ℚ := 0
  financialAction : String := ""
  customerAction : String := ""
  internalAction : String := ""
  learningAction : String := ""
  folderURL : String := ""
  filesJSON : String := ""
  evaluatorVote : String := ""
  evaluatorComment : String := ""
  stage1Rec : String := ""
  stage1Comment : String := ""
  committeeVotes : String := ""
  currentStatus : String := ""
  lockToken : String := ""
  lockExpiry : Option Int := none
  lockHolder : String := ""
  deriving DecidableEq

/-- Python truthiness of an optional string argument (`None` and `""` are
falsy). -/
def pyTruthy (o : Option String) : Bool :=
  match o with
  | none => false
  | some s => s ≠ ""

/-- Embedding of `acquire_lock(name, timestamp, holder, timeout_seconds)`
(bsc.py lines 585-702) acting on the located record.  `now` is the current
instant (`datetime.utcnow()`), `freshTok` the freshly generated
`uuid.uuid4()` token, `ttl` the `timeout_seconds` argument.  Returns the
`(token, expiry)` pair (`none` embeds the Python `(None, None)`) together
with the resulting record.  The Google-Sheet path (lines 638-660) and the
CSV fallback path (lines 678-699) run the same lock check and writes. -/
def acquire_lock (r : Record) (now : Int) (freshTok holder : String) (ttl : Int) :
    Option (String × Int) × Record :=
  let go : Option (String × Int) × Record :=
    (some (freshTok, now + ttl),
      { r with lockToken := freshTok, lockExpiry := some (now + ttl), lockHolder := holder })
  if r.lockToken = "" then go
  else
    match r.lockExpiry with
    | some exp => if now < exp then (none, r) else go
    | none => (none, r)

/-- Embedding of `release_lock(name, timestamp, token)` (bsc.py lines
705-777) acting on the located record.  Both the sheet path (lines 741-749)
and the CSV fallback (lines 767-774) perform the same comparison and
clearing; the `Lock Holder` cell is left as is. -/
def release_lock (r : Record) (token : String) : Bool × Record :=
  if r.lockToken = "" ∨ r.lockToken ≠ token then (false, r)
  else (true, { r with lockToken := "", lockExpiry := none })

/-- Embedding of `update_evaluator_vote(name, timestamp, vote, comment,
lock_token, stage1_rec, stage1_comment, committee_vote, evaluator_name,
current_status)` (bsc.py lines 441-582) acting on the located record.
When the stored token is non-empty and the provided token is absent, empty
or different, both the sheet path (lines 481-486) and the CSV fallback
(lines 543-546) raise, so the call returns `False` without touching the
record; otherwise the requested fields are written in source order and the
lock cells are cleared when a truthy `lock_token` was supplied. -/
def update_evaluator_vote (r : Record)
    (vote comment lock_token stage1_rec stage1_comment committee_vote
      evaluator_name current_status : Option String) : Bool × Record :=
  if r.lockToken ≠ "" ∧ (¬ pyTruthy lock_token ∨ lock_token ≠ some r.lockToken) then
    (false, r)
  else
    let r1 := match vote with | some v => { r with evaluatorVote := v } | none => r
    let r2 := match comment with | some c => { r1 with evaluatorComment := c } | none => r1
    let r3 := match stage1_rec with | some v => { r2 with stage1Rec := v } | none => r2
    let r4 := match stage1_comment with | some v => { r3 with stage1Comment := v } | none => r3
    let r5 := match committee_vote with
      | some v =>
        let existing := r4.committeeVotes
        let nm := match evaluator_name with
          | some n => if n = "" then "Evaluator" else n
          | none => "Evaluator"
        let new_entry := nm ++ ":" ++ v
        { r4 with committeeVotes := existing ++ (if existing ≠ "" then ";" else "") ++ new_entry }
      | none => r4
    let r6 := match current_status with | some v => { r5 with currentStatus := v } | none => r5
    let r7 := if pyTruthy lock_token then { r6 with lockToken := "", lockExpiry := none } else r6
    (true, r7)

/-- Embedding of the local `vote_to_weight` helper of the Final Results tab
(bsc.py lines 1177-1185): strip and lowercase the vote text, then match the
substrings `winner`, `runner`, `shortlist` in that order. -/
def vote_to_weight (v : String) : ℚ :=
  let w := pyLower (pyStrip v)
  if strIn "winner" w then 1
  else if strIn "runner" w then 7/10
  else if strIn "shortlist" w then 1/2
  else 0

/-- Vote weights extracted from a record for the Final Results tab
(bsc.py lines 1203-1214): when the `Committee Votes` field is non-empty it
is split on `;` and each part contributes the weight of the text after its
first colon; when it is empty but the legacy `Evaluator Vote` field is
non-empty, that single vote contributes; otherwise there are no weights. -/
def committeeWeights (r : Record) : List ℚ :=
  if r.committeeVotes ≠ "" then
    (pySplit r.committeeVotes ';').map fun part => vote_to_weight (afterFirstColon part)
  else if r.evaluatorVote ≠ "" then [vote_to_weight r.evaluatorVote]
  else []

/-- One row of the Final Results table. -/
structure RankRow where
  name : String
  totalScore : ℚ
  committeeVotes : String
  avgWeight : ℚ
  finalRank : ℚ
  currentStatus : String
  deriving DecidableEq

/-- Embedding of the per-record row construction of the Final Results tab
(bsc.py lines 1188-1218): the system score is the stored `Total Score`
(always numeric in this model; the source falls back to the sum of the four
perspective scores only when that cell does not parse as a float), the
average weight is `0.0` when there are no weights, and the displayed
`Avg Vote Weight` and `Final Rank` cells are rounded to two and one
decimals respectively. -/
def finalRankRow (r : Record) : RankRow :=
  let sys_score := r.totalScore
  let weights := committeeWeights r
  let avg_w : ℚ := if weights = [] then 0 else weights.sum / weights.length
  let final_rank := sys_score * (2/5) + (avg_w * 100) * (3/5)
  { name := r.name, totalScore := sys_score, committeeVotes := r.committeeVotes,
    avgWeight := round2 avg_w, finalRank := round1 final_rank,
    currentStatus := r.currentStatus }

/-- Embedding of the Final Results tab (bsc.py lines 1168-1221): records
whose `Stage 1 Recommendation` contains `recommend` case-insensitively are
turned into rows and sorted by descending `Final Rank`.  The source sorts
with `pandas.sort_values` (whose tie order is not specified); the model
uses the stable `mergeSort`, which keeps ties in input order. -/
def finalResults (records : List Record) : List RankRow :=
  let recs := records.filter fun r => strIn "recommend" (pyLower r.stage1Rec)
  (recs.map finalRankRow).mergeSort fun a b => b.finalRank ≤ a.finalRank

/-- Embedding of the record built by the CSV fallback branch of
`log_submission` (bsc.py lines 385-403); the sheet branch (lines 318-338)
writes the same logical fields.  `name` and `totalScore` are computed as in
lines 311-313.  The score and action dictionaries always carry exactly the
four perspectives, so they are passed as explicit per-perspective
arguments. -/
def mkSubmissionRecord (first last : String) (finS custS ibpS lgS : ℚ)
    (finA custA ibpA lgA : String) (folder filesJson ts : String) : Record :=
  { name := pyStrip (pyStrip first ++ " " ++ pyStrip last),
    timestamp := ts,
    totalScore := round1 (finS + custS + ibpS + lgS),
    financialScore := finS, customerScore := custS,
    internalScore := ibpS, learningScore := lgS,
    financialAction := finA, customerAction := custA,
    internalAction := ibpA, learningAction := lgA,
    folderURL := folder, filesJSON := filesJson }

/-- The record store seen by `log_submission` and `read_records`: the
remote Google Sheet and the local CSV fallback.  `remoteOK = false` embeds
the situation in which any remote call raises. -/
structure Store where
  remoteOK : Bool
  remote : List Record := []
  csv : List Record := []
  deriving DecidableEq

/-- Embedding of `log_submission` (bsc.py lines 304-411): the record is
appended to the sheet when the remote store works, and to the local CSV
fallback when any remote call raises. -/
def log_submission (s : Store) (first last : String) (finS custS ibpS lgS : ℚ)
    (finA custA ibpA lgA : String) (folder filesJson ts : String) : Store :=
  let rcd := mkSubmissionRecord first last finS custS ibpS lgS finA custA ibpA lgA
    folder filesJson ts
  if s.remoteOK then { s with remote := s.remote ++ [rcd] }
  else { s with csv := s.csv ++ [rcd] }

/-- Embedding of `read_records` (bsc.py lines 414-438): the sheet contents
when the remote store works, the local CSV contents when any remote call
raises. -/
def read_records (s : Store) : List Record :=
  if s.remoteOK then s.remote else s.csv

/-! Concrete fixtures used by witnesses and counterexamples. -/

/-- A record locked by Alice with a valid (far future) expiry. -/
def rLocked : Record := { name := "Jane Doe", lockToken := "tok1", lockExpiry := some 1000, lockHolder := "Alice" }

/-- A record locked by Alice whose expiry instant has already passed. -/
def rStale : Record := { name := "Jane Doe", lockToken := "tok1", lockExpiry := some 10, lockHolder := "Alice" }

/-- A record whose lock token is set but whose stored expiry does not parse
as an ISO-8601 timestamp. -/
def rBadExpiry : Record := { name := "Jane Doe", lockToken := "tok1", lockExpiry := none, lockHolder := "Alice" }

/-- An unlocked record. -/
def rUnlocked : Record := { name := "Jane Doe" }

/-- A recommended candidate with a legacy single-evaluator vote and no
committee votes. -/
def rA : Record :=
  { name := "A", totalScore := 80, stage1Rec := "Recommend for Finals", evaluatorVote := "Winner" }

/-- A recommended candidate with one committee vote. -/
def rB : Record :=
  { name := "B", totalScore := 60, stage1Rec := "Recommend for Finals", committeeVotes := "Carol:Runner-up" }

/-- A store whose remote backend raises on every call. -/
def sDown : Store := { remoteOK := false }

/-- A recommended, locked record with one existing committee vote. -/
def rCommittee : Record :=
  { name := "Jane Doe", stage1Rec := "Recommend for Finals",
    committeeVotes := "Bob:Runner-up", lockToken := "tok1",
    lockExpiry := some 1000, lockHolder := "Carol" }

end BSC

namespace BSC

/-! Helper lemmas. -/

/-- A string append is non-empty when its right part is. -/
theorem append_ne_empty_of_right (s t : String) (ht : t ≠ "") : s ++ t ≠ "" := by
  intro h
  apply ht
  apply String.ext
  have hd : (s ++ t).data = [] := by rw [h]
  rw [String.data_append] at hd
  exact List.append_eq_nil.mp hd |>.2

/-- The record a successful `acquire_lock` call leaves behind: token,
expiry and holder are all overwritten. -/
theorem acquire_lock_isSome_record (r : Record) (now : Int) (tok holder : String) (ttl : Int)
    (hs : ((acquire_lock r now tok holder ttl).1).isSome) :
    (acquire_lock r now tok holder ttl).2 =
      { r with lockToken := tok, lockExpiry := some (now + ttl), lockHolder := holder } := by
  unfold acquire_lock at hs ⊢
  by_cases he : r.lockToken = ""
  · simp [he]
  · simp only [if_neg he] at hs ⊢
    cases hx : r.lockExpiry with
    | none => simp [hx] at hs
    | some exp =>
      simp only [hx] at hs ⊢
      by_cases hlt : now < exp
      · simp [hlt] at hs
      · simp [hlt]

end BSC

namespace BSC

/-- C1: lock acquisition is mutually exclusive.  If an `acquire_lock` call
with a non-empty fresh token succeeds, then a second `acquire_lock` call on
the resulting record, made before the first lock's expiry instant
`now1 + ttl` and with no intervening release, returns the Python
`(None, None)` and leaves the stored lock fields unchanged. -/
theorem acquire_lock_exclusive (r : Record) (now1 now2 ttl : Int)
    (tok1 holder1 tok2 holder2 : String)
    (htok : tok1 ≠ "")
    (hsucc : ((acquire_lock r now1 tok1 holder1 ttl).1).isSome)
    (hfresh : now2 < now1 + ttl) :
    acquire_lock (acquire_lock r now1 tok1 holder1 ttl).2 now2 tok2 holder2 ttl
      = (none, (acquire_lock r now1 tok1 holder1 ttl).2) := by
  rw [acquire_lock_isSome_record r now1 tok1 holder1 ttl hsucc]
  unfold acquire_lock
  simp [htok, hfresh]

/-- Witness for `acquire_lock_exclusive`: an unlocked record is locked at
instant 0 with a 120-second TTL, and a second acquisition at instant 60
fails without mutating the record. -/
theorem acquire_lock_exclusive_witness :
    acquire_lock (acquire_lock {} 0 "tok1" "Alice" 120).2 60 "tok2" "Bob" 120
      = (none, (acquire_lock {} 0 "tok1" "Alice" 120).2) :=
  acquire_lock_exclusive {} 0 60 120 "tok1" "Alice" "tok2" "Bob"
    (by decide) (by decide) (by decide)

/-- C3: an expired lock is implicitly released.  When the stored token is
non-empty but the stored expiry parses to an instant in the past,
`acquire_lock` succeeds, overwriting the old lock with the fresh token, the
new expiry `now + ttl` and the new holder, with no release ever called. -/
theorem acquire_lock_after_expiry (r : Record) (now ttl e : Int) (tok holder : String)
    (hlocked : r.lockToken ≠ "") (hexp : r.lockExpiry = some e) (hpast : e < now) :
    acquire_lock r now tok holder ttl =
      (some (tok, now + ttl),
        { r with lockToken := tok, lockExpiry := some (now + ttl), lockHolder := holder }) := by
  unfold acquire_lock
  simp [hlocked, hexp, not_lt_of_gt hpast]

/-- Witness for `acquire_lock_after_expiry`: the stale lock of `rStale`
(expiry instant 10) is overwritten at instant 100. -/
theorem acquire_lock_after_expiry_witness :
    acquire_lock rStale 100 "tok2" "Bob" 120 =
      (some ("tok2", 220),
        { rStale with lockToken := "tok2", lockExpiry := some 220, lockHolder := "Bob" }) :=
  acquire_lock_after_expiry rStale 100 120 10 "tok2" "Bob" (by decide) (by decide) (by decide)

/-- C10: a record whose lock token is non-empty but whose stored expiry
does not parse as an ISO-8601 timestamp is treated as still locked:
`acquire_lock` returns the Python `(None, None)` at every instant and
leaves the lock fields unchanged, so the lock is never implicitly released
by expiry. -/
theorem acquire_lock_unparsable_expiry (r : Record) (now ttl : Int) (tok holder : String)
    (hlocked : r.lockToken ≠ "") (hexp : r.lockExpiry = none) :
    acquire_lock r now tok holder ttl = (none, r) := by
  unfold acquire_lock
  simp [hlocked, hexp]

/-- Witness for `acquire_lock_unparsable_expiry`: acquisition on
`rBadExpiry` fails. -/
theorem acquire_lock_unparsable_expiry_witness :
    acquire_lock rBadExpiry 1000000 "tok2" "Bob" 120 = (none, rBadExpiry) :=
  acquire_lock_unparsable_expiry rBadExpiry 1000000 120 "tok2" "Bob" (by decide) (by decide)

/-- C4: release is token-gated and exact.  `release_lock` returns `True`
and clears the stored token and expiry exactly when the stored token is
non-empty and equals the provided token; on a wrong or missing token it
returns `False` and mutates nothing; and after a matching release a
subsequent `acquire_lock` on the same record succeeds. -/
theorem release_lock_token_gated (r : Record) (token tok2 holder2 : String) (now ttl : Int) :
    (release_lock r token = (true, { r with lockToken := "", lockExpiry := none })
        ↔ r.lockToken ≠ "" ∧ r.lockToken = token) ∧
    ((r.lockToken = "" ∨ r.lockToken ≠ token) → release_lock r token = (false, r)) ∧
    (r.lockToken ≠ "" → r.lockToken = token →
      (acquire_lock (release_lock r token).2 now tok2 holder2 ttl).1
        = some (tok2, now + ttl)) := by
  refine ⟨?_, ?_, ?_⟩
  · constructor
    · intro h
      unfold release_lock at h
      by_cases hc : r.lockToken = "" ∨ r.lockToken ≠ token
      · rw [if_pos hc] at h
        simp at h
      · push_neg at hc
        exact ⟨hc.1, hc.2⟩
    · rintro ⟨h1, h2⟩
      unfold release_lock
      rw [if_neg]
      push_neg
      exact ⟨h1, h2⟩
  · intro hc
    unfold release_lock
    rw [if_pos hc]
  · intro h1 h2
    unfold release_lock
    rw [if_neg (by push_neg; exact ⟨h1, h2⟩)]
    unfold acquire_lock
    simp

/-- Witness for `release_lock_token_gated`: releasing `rLocked` with its
own token. -/
theorem release_lock_token_gated_witness :
    (release_lock rLocked "tok1" = (true, { rLocked with lockToken := "", lockExpiry := none })
        ↔ rLocked.lockToken ≠ "" ∧ rLocked.lockToken = "tok1") ∧
    ((rLocked.lockToken = "" ∨ rLocked.lockToken ≠ "tok1") →
      release_lock rLocked "tok1" = (false, rLocked)) ∧
    (rLocked.lockToken ≠ "" → rLocked.lockToken = "tok1" →
      (acquire_lock (release_lock rLocked "tok1").2 2000 "tok2" "Bob" 120).1
        = some ("tok2", 2120)) :=
  release_lock_token_gated rLocked "tok1" "tok2" "Bob" 2000 120

end BSC

namespace BSC

/-- A string of the shape `n ++ ":" ++ v` is never empty. -/
theorem colon_entry_ne_empty (n v : String) : n ++ ":" ++ v ≠ "" := by
  intro h
  have hd : (n ++ ":" ++ v).data = ("" : String).data := by rw [h]
  simp only [String.data_append] at hd
  simp at hd

/-- C2 (amended): the lock gate of `update_evaluator_vote`.  For a record
whose stored lock token is non-empty, a call whose `lock_token` is absent,
empty or different fails with the lock error, returns `False` and leaves
every field unchanged.  For a record whose stored token is empty, however,
the call returns `True` and applies its updates whatever token is supplied,
so holding a valid lock is not actually required then. -/
theorem update_evaluator_vote_lock_gate (r u : Record)
    (vote comment lock_token stage1_rec stage1_comment committee_vote
      evaluator_name current_status : Option String)
    (hr : r.lockToken ≠ "")
    (hbad : ¬ pyTruthy lock_token ∨ lock_token ≠ some r.lockToken)
    (hu : u.lockToken = "") :
    update_evaluator_vote r vote comment lock_token stage1_rec stage1_comment
        committee_vote evaluator_name current_status = (false, r) ∧
    (update_evaluator_vote u vote comment lock_token stage1_rec stage1_comment
        committee_vote evaluator_name current_status).1 = true := by
  constructor
  · unfold update_evaluator_vote
    rw [if_pos ⟨hr, hbad⟩]
  · unfold update_evaluator_vote
    rw [if_neg (by simp [hu])]

/-- Witness for `update_evaluator_vote_lock_gate`: a stage-1 write without
any token is rejected on the locked record and accepted on the unlocked
one. -/
theorem update_evaluator_vote_lock_gate_witness :
    update_evaluator_vote rLocked none none none (some "Reject") none none none none
        = (false, rLocked) ∧
    (update_evaluator_vote rUnlocked none none none (some "Reject") none none none none).1
        = true :=
  update_evaluator_vote_lock_gate rLocked rUnlocked none none none (some "Reject")
    none none none none (by decide) (by decide) (by decide)

/-- Counterexample for C2 as stated: the record `rUnlocked` stores no lock
token, so no evaluator holds a valid lock on it, yet a submit carrying a
stale session token succeeds and mutates the stage-1 recommendation
instead of failing. -/
theorem update_without_lock_mutates :
    rUnlocked.lockToken = "" ∧
    (update_evaluator_vote rUnlocked none none (some "stale") (some "Reject")
        none none none none).1 = true ∧
    (update_evaluator_vote rUnlocked none none (some "stale") (some "Reject")
        none none none none).2.stage1Rec = "Reject" ∧
    rUnlocked.stage1Rec ≠ "Reject" := by
  refine ⟨rfl, rfl, rfl, by decide⟩

end BSC

namespace BSC

/-- Characterization of a committee-vote submission that passes the lock
gate: it succeeds, appends `name:vote` to the committee-votes field after
a `;` separator when the field was non-empty, and clears the stored lock
token exactly when a truthy token was supplied. -/
theorem update_committee_field (r : Record) (lock_token com st en : Option String) (v : String)
    (hgate : ¬(r.lockToken ≠ "" ∧ (¬ pyTruthy lock_token ∨ lock_token ≠ some r.lockToken))) :
    (update_evaluator_vote r none com lock_token none none (some v) en st).1 = true ∧
    (update_evaluator_vote r none com lock_token none none (some v) en st).2.committeeVotes
      = r.committeeVotes ++ (if r.committeeVotes ≠ "" then ";" else "")
        ++ ((match en with | some n => if n = "" then "Evaluator" else n | none => "Evaluator")
            ++ ":" ++ v) ∧
    (update_evaluator_vote r none com lock_token none none (some v) en st).2.lockToken
      = (if pyTruthy lock_token then "" else r.lockToken) := by
  unfold update_evaluator_vote
  rw [if_neg hgate]
  refine ⟨rfl, ?_, ?_⟩
  · cases com <;> cases st <;> cases en <;>
      by_cases hp : pyTruthy lock_token <;> simp [hp]
  · cases com <;> cases st <;> cases en <;>
      by_cases hp : pyTruthy lock_token <;> simp [hp]

end BSC

namespace BSC

/-- C8: submitting a committee vote appends `name:vote` to the record's
Committee Votes field, semicolon-joined after the existing entries, which
are preserved unchanged; a second vote by the same evaluator name appends
a duplicate entry after the first one rather than replacing it.  The
evaluator holds the matching stored lock `t` for the first submission; the
comment and status arguments of the Stage 2 submit are arbitrary. -/
theorem committee_vote_appends (r : Record) (t t2 v n : String) (com st : Option String)
    (hstored : r.lockToken = t) (ht : t ≠ "") (hn : n ≠ "") :
    (update_evaluator_vote r none com (some t) none none (some v) (some n) st).1 = true ∧
    (update_evaluator_vote r none com (some t) none none (some v) (some n) st).2.committeeVotes
      = r.committeeVotes ++ (if r.committeeVotes ≠ "" then ";" else "") ++ (n ++ ":" ++ v) ∧
    (update_evaluator_vote
        (update_evaluator_vote r none com (some t) none none (some v) (some n) st).2
        none com (some t2) none none (some v) (some n) st).2.committeeVotes
      = (update_evaluator_vote r none com (some t) none none (some v) (some n) st).2.committeeVotes
        ++ ";" ++ (n ++ ":" ++ v) := by
  have hp : pyTruthy (some t) = true := by simp [pyTruthy, ht]
  have hgate1 : ¬(r.lockToken ≠ "" ∧
      (¬ pyTruthy (some t) ∨ (some t : Option String) ≠ some r.lockToken)) := by
    rw [hstored]
    simp [hp]
  obtain ⟨h1, h2, h3⟩ := update_committee_field r (some t) com st (some n) v hgate1
  rw [hp, if_pos rfl] at h3
  have hname : (match (some n : Option String) with
      | some m => if m = "" then "Evaluator" else m
      | none => "Evaluator") = n := by simp [hn]
  rw [hname] at h2
  have hgate2 : ¬((update_evaluator_vote r none com (some t) none none (some v) (some n) st).2.lockToken ≠ "" ∧
      (¬ pyTruthy (some t2) ∨ (some t2 : Option String)
        ≠ some (update_evaluator_vote r none com (some t) none none (some v) (some n) st).2.lockToken)) := by
    rw [h3]
    simp
  obtain ⟨g1, g2, g3⟩ := update_committee_field
    (update_evaluator_vote r none com (some t) none none (some v) (some n) st).2
    (some t2) com st (some n) v hgate2
  rw [hname] at g2
  have hne : (update_evaluator_vote r none com (some t) none none (some v) (some n) st).2.committeeVotes ≠ "" := by
    rw [h2]
    exact append_ne_empty_of_right _ _ (colon_entry_ne_empty n v)
  rw [if_pos hne] at g2
  exact ⟨h1, h2, g2⟩

/-- Witness for `committee_vote_appends`: Carol votes Winner twice on a
record already carrying one committee vote. -/
theorem committee_vote_appends_witness :
    (update_evaluator_vote rCommittee none none (some "tok1") none none (some "Winner")
        (some "Carol") none).1 = true ∧
    (update_evaluator_vote rCommittee none none (some "tok1") none none (some "Winner")
        (some "Carol") none).2.committeeVotes
      = rCommittee.committeeVotes ++ (if rCommittee.committeeVotes ≠ "" then ";" else "")
        ++ ("Carol" ++ ":" ++ "Winner") ∧
    (update_evaluator_vote
        (update_evaluator_vote rCommittee none none (some "tok1") none none (some "Winner")
          (some "Carol") none).2
        none none (some "tok9") none none (some "Winner") (some "Carol") none).2.committeeVotes
      = (update_evaluator_vote rCommittee none none (some "tok1") none none (some "Winner")
          (some "Carol") none).2.committeeVotes ++ ";" ++ ("Carol" ++ ":" ++ "Winner") :=
  committee_vote_appends rCommittee "tok1" "tok9" "Winner" "Carol" none none
    (by decide) (by decide) (by decide)

end BSC

namespace BSC

/-- Rounding to one decimal is monotone. -/
theorem round1_mono {a b : ℚ} (h : a ≤ b) : round1 a ≤ round1 b := by
  unfold round1
  have h2 : (round (a * 10) : ℤ) ≤ round (b * 10) := by
    rw [round_eq, round_eq]
    exact Int.floor_le_floor (by linarith)
  have h3 : ((round (a * 10) : ℤ) : ℚ) ≤ ((round (b * 10) : ℤ) : ℚ) := by exact_mod_cast h2
  linarith

/-- Rounding to one decimal preserves nonnegativity. -/
theorem round1_nonneg {q : ℚ} (h : 0 ≤ q) : 0 ≤ round1 q := by
  have h0 : round1 0 = 0 := by norm_num [round1]
  have := round1_mono h
  rw [h0] at this
  exact this

/-- Rounding to one decimal preserves the 25-point cap. -/
theorem round1_le_25 {q : ℚ} (h : q ≤ 25) : round1 q ≤ 25 := by
  have h25 : round1 25 = 25 := by norm_num [round1]
  have := round1_mono h
  rw [h25] at this
  exact this

/-- C6 (amended): scoring an empty action text with no attachments returns
0 under both policies; the keyword-weighted policy returns 0 on empty text
whatever the attachments and keywords; the completion-weighted policy
returns 0 on empty or whitespace-only text with fewer than two attachments
but 5 with two or more attachments. -/
theorem scoring_empty_text (files kws fs1 fs2 : List String) (t : String)
    (hws : pyStrip t = "") (hfew : fs1.length < 2) (hmany : 2 ≤ fs2.length) :
    score_perspective "" files kws = 0 ∧
    evaluate_perspective t fs1 = 0 ∧
    evaluate_perspective t fs2 = 5 := by
  refine ⟨?_, ?_, ?_⟩
  · have h1 : pyLower "" = "" := rfl
    simp [score_perspective, h1]
  · simp only [evaluate_perspective, hws]
    have hn : ¬ (2 ≤ fs1.length) := by omega
    norm_num [hn]
  · simp only [evaluate_perspective, hws]
    norm_num [hmany]

/-- Witness for `scoring_empty_text` at a whitespace-only text. -/
theorem scoring_empty_text_witness :
    score_perspective "" ["x.pdf"] ["growth"] = 0 ∧
    evaluate_perspective "  " ["a.pdf"] = 0 ∧
    evaluate_perspective "  " ["a.pdf", "b.pdf"] = 5 :=
  scoring_empty_text ["x.pdf"] ["growth"] ["a.pdf"] ["a.pdf", "b.pdf"] "  "
    (by decide) (by decide) (by decide)

/-- Counterexample for C6 as stated: the completion-weighted policy gives
an empty text with two attachments 5 points, and the keyword-weighted
policy gives a two-space whitespace-only text 0.1 length points, so
neither policy returns 0 on every empty or whitespace-only text for every
attachment count. -/
theorem scoring_empty_text_cex :
    evaluate_perspective "" ["a.pdf", "b.pdf"] = 5 ∧
    score_perspective "  " [] [] = 1/10 ∧
    (5 : ℤ) ≠ 0 ∧ (1/10 : ℚ) ≠ 0 := by
  refine ⟨by decide, ?_, by decide, by norm_num⟩
  have h1 : pyLower "  " = "  " := rfl
  have h2 : ("  " : String) ≠ "" := by decide
  have hl : ("  " : String).length = 2 := rfl
  simp only [score_perspective, h1, if_neg h2, hl]
  norm_num [strIn, listContainsSub, round1, round_eq, min_def]

end BSC

namespace BSC

/-- C7: the keyword-weighted score of a non-empty text equals
`min(#distinct matching keywords, 5)/5 × 15` plus
`min(length, 300)/300 × 10`, plus 3 when the text is longer than 200
characters and at least two attachments are supplied, capped at 25 and
rounded to one decimal; and for every input the score lies in `[0, 25]`.
The keyword list is a set (`Nodup`), so the number of distinct matching
keywords is the number of matching entries. -/
theorem score_perspective_formula (action : String) (files keywords : List String)
    (hnd : keywords.Nodup) :
    (pyLower action ≠ "" →
      score_perspective action files keywords
        = round1 (min 25
            ((((keywords.filter fun kw =>
                  strIn (pyLower kw) (pyLower action)).dedup.length ⊓ 5 : ℕ) : ℚ) / 5 * 15
              + ((min (pyLower action).length 300 : ℕ) : ℚ) / 300 * 10
              + (if (pyLower action).length > 200 ∧ files.length ≥ 2 then 3 else 0)))) ∧
    0 ≤ score_perspective action files keywords ∧
    score_perspective action files keywords ≤ 25 := by
  have hd : (keywords.filter fun kw => strIn (pyLower kw) (pyLower action)).dedup
      = keywords.filter fun kw => strIn (pyLower kw) (pyLower action) :=
    List.Nodup.dedup (List.Nodup.filter _ hnd)
  rw [hd]
  by_cases hne : pyLower action = ""
  · refine ⟨fun h => absurd hne h, ?_, ?_⟩
    · simp [score_perspective, hne]
    · simp [score_perspective, hne]
  · have hkp : (0:ℚ) ≤ ((min ((keywords.filter fun kw =>
        strIn (pyLower kw) (pyLower action)).length) 5 : ℕ) : ℚ) / 5 * 15 := by positivity
    have hlp : (0:ℚ) ≤ ((min (pyLower action).length 300 : ℕ) : ℚ) / 300 * 10 := by positivity
    refine ⟨?_, ?_, ?_⟩
    · intro _
      simp only [score_perspective, if_neg hne]
      by_cases hb : (pyLower action).length > 200 ∧ files.length ≥ 2
      · rw [if_pos hb, if_pos hb]
        congr 1
        rw [← min_assoc, min_self]
      · rw [if_neg hb, if_neg hb]
        rw [add_zero]
    · simp only [score_perspective, if_neg hne]
      apply round1_nonneg
      by_cases hb : (pyLower action).length > 200 ∧ files.length ≥ 2
      · rw [if_pos hb]
        refine le_min (by norm_num) (le_min (by norm_num) (by linarith))
      · rw [if_neg hb]
        exact le_min (by norm_num) (by linarith)
    · simp only [score_perspective, if_neg hne]
      exact round1_le_25 (min_le_left _ _)

/-- Witness for `score_perspective_formula` at a concrete action text with
a duplicate-free keyword list. -/
theorem score_perspective_formula_witness :
    (pyLower "Improved revenue and training" ≠ "" →
      score_perspective "Improved revenue and training" [] ["revenue", "training", "growth"]
        = round1 (min 25
            (((((["revenue", "training", "growth"] : List String).filter fun kw =>
                  strIn (pyLower kw) (pyLower "Improved revenue and training")).dedup.length ⊓ 5 : ℕ) : ℚ) / 5 * 15
              + ((min (pyLower "Improved revenue and training").length 300 : ℕ) : ℚ) / 300 * 10
              + (if (pyLower "Improved revenue and training").length > 200
                    ∧ ([] : List String).length ≥ 2 then 3 else 0)))) ∧
    0 ≤ score_perspective "Improved revenue and training" [] ["revenue", "training", "growth"] ∧
    score_perspective "Improved revenue and training" [] ["revenue", "training", "growth"] ≤ 25 :=
  score_perspective_formula "Improved revenue and training" []
    ["revenue", "training", "growth"] (by decide)

end BSC

namespace BSC

/-- C9: fallback round-trip.  When every remote call raises, the submission
is written to the local CSV fallback, and reading back through the same
fallback path returns the stored records ending with an equivalent record:
same name, same per-perspective and total scores, and same action texts. -/
theorem log_submission_fallback_roundtrip (s : Store) (first last : String)
    (finS custS ibpS lgS : ℚ) (finA custA ibpA lgA : String)
    (folder filesJson ts : String) (h : s.remoteOK = false) :
    ∃ rcd : Record,
      read_records (log_submission s first last finS custS ibpS lgS
          finA custA ibpA lgA folder filesJson ts) = s.csv ++ [rcd] ∧
      rcd.name = pyStrip (pyStrip first ++ " " ++ pyStrip last) ∧
      rcd.totalScore = round1 (finS + custS + ibpS + lgS) ∧
      rcd.financialScore = finS ∧ rcd.customerScore = custS ∧
      rcd.internalScore = ibpS ∧ rcd.learningScore = lgS ∧
      rcd.financialAction = finA ∧ rcd.customerAction = custA ∧
      rcd.internalAction = ibpA ∧ rcd.learningAction = lgA := by
  refine ⟨mkSubmissionRecord first last finS custS ibpS lgS finA custA ibpA lgA
    folder filesJson ts, ?_, rfl, rfl, rfl, rfl, rfl, rfl, rfl, rfl, rfl, rfl⟩
  simp [read_records, log_submission, h]

/-- Witness for `log_submission_fallback_roundtrip` on the store whose
remote backend is down. -/
theorem log_submission_fallback_roundtrip_witness :
    ∃ rcd : Record,
      read_records (log_submission sDown "Jane " " Doe" 10 15 20 25
          "finA" "custA" "ibpA" "lgA" "url" "files" "2026-01-01T00:00:00") = sDown.csv ++ [rcd] ∧
      rcd.name = pyStrip (pyStrip "Jane " ++ " " ++ pyStrip " Doe") ∧
      rcd.totalScore = round1 (10 + 15 + 20 + 25) ∧
      rcd.financialScore = 10 ∧ rcd.customerScore = 15 ∧
      rcd.internalScore = 20 ∧ rcd.learningScore = 25 ∧
      rcd.financialAction = "finA" ∧ rcd.customerAction = "custA" ∧
      rcd.internalAction = "ibpA" ∧ rcd.learningAction = "lgA" :=
  log_submission_fallback_roundtrip sDown "Jane " " Doe" 10 15 20 25
    "finA" "custA" "ibpA" "lgA" "url" "files" "2026-01-01T00:00:00" rfl

end BSC

namespace BSC

/-- Python `split` never yields an empty list of parts. -/
theorem splitOnChar_ne_nil (sep : Char) (l : List Char) : splitOnChar sep l ≠ [] := by
  cases l with
  | nil => simp [splitOnChar]
  | cons c t =>
    unfold splitOnChar
    by_cases hc : c = sep
    · simp [hc]
    · simp only [if_neg hc]
      cases hx : splitOnChar sep t <;> simp

/-- C5 (amended): the Final Results table lists exactly the records whose
Stage 1 Recommendation contains `recommend` case-insensitively, in
descending order of the Final Rank column.  For each record the stored
Avg Vote Weight is `round2` and the Final Rank `round1` of the exact
values; the average weight is taken over the parsed committee-vote entries
when the Committee Votes field is non-empty, falls back to the single
legacy Evaluator Vote when that field is empty but the Evaluator Vote is
not, and is 0.0 only when both are empty; the final rank is
`total_score × 0.4 + (weight × 100) × 0.6` before rounding. -/
theorem finalResults_ranking (rs : List Record) (r : Record) :
    (finalResults rs).Pairwise (fun a b => b.finalRank ≤ a.finalRank) ∧
    (finalResults rs).Perm
      ((rs.filter fun x => strIn "recommend" (pyLower x.stage1Rec)).map finalRankRow) ∧
    (r.committeeVotes = "" → r.evaluatorVote = "" →
      (finalRankRow r).avgWeight = 0 ∧
      (finalRankRow r).finalRank = round1 (r.totalScore * (2/5))) ∧
    (r.committeeVotes = "" → r.evaluatorVote ≠ "" →
      (finalRankRow r).avgWeight = round2 (vote_to_weight r.evaluatorVote) ∧
      (finalRankRow r).finalRank
        = round1 (r.totalScore * (2/5) + (vote_to_weight r.evaluatorVote * 100) * (3/5))) ∧
    (r.committeeVotes ≠ "" →
      (finalRankRow r).avgWeight
        = round2 ((((pySplit r.committeeVotes ';').map fun part =>
              vote_to_weight (afterFirstColon part)).sum)
            / ((pySplit r.committeeVotes ';').length)) ∧
      (finalRankRow r).finalRank
        = round1 (r.totalScore * (2/5)
          + (((((pySplit r.committeeVotes ';').map fun part =>
                vote_to_weight (afterFirstColon part)).sum)
              / ((pySplit r.committeeVotes ';').length) * 100) * (3/5)))) := by
  refine ⟨?_, ?_, ?_, ?_, ?_⟩
  · have hs := @List.sorted_mergeSort RankRow
      (fun a b : RankRow => decide (b.finalRank ≤ a.finalRank))
      (fun a b c hab hbc => by
        simp only [decide_eq_true_eq] at *
        exact le_trans hbc hab)
      (fun a b => by
        simp only [Bool.or_eq_true, decide_eq_true_eq]
        exact le_total b.finalRank a.finalRank)
      ((rs.filter fun x => strIn "recommend" (pyLower x.stage1Rec)).map finalRankRow)
    simp only [finalResults]
    exact hs.imp (fun h => by simpa using h)
  · simp only [finalResults]
    exact List.mergeSort_perm _ _
  · intro h1 h2
    have hw : committeeWeights r = [] := by simp [committeeWeights, h1, h2]
    constructor
    · simp only [finalRankRow, hw]
      norm_num [round2]
    · simp only [finalRankRow, hw]
      norm_num
  · intro h1 h2
    have hw : committeeWeights r = [vote_to_weight r.evaluatorVote] := by
      simp [committeeWeights, h1, h2]
    constructor
    · simp [finalRankRow, hw]
    · simp [finalRankRow, hw]
  · intro h1
    have hw : committeeWeights r
        = (pySplit r.committeeVotes ';').map fun part =>
            vote_to_weight (afterFirstColon part) := by
      simp [committeeWeights, h1]
    have hne : committeeWeights r ≠ [] := by
      rw [hw]
      simp only [ne_eq, List.map_eq_nil_iff]
      simp [pySplit]
      exact splitOnChar_ne_nil ';' r.committeeVotes.data
    constructor
    · simp only [finalRankRow, hw]
      rw [if_neg (hw ▸ hne)]
      simp [pySplit]
    · simp only [finalRankRow, hw]
      rw [if_neg (hw ▸ hne)]
      simp [pySplit]

/-- Witness for `finalResults_ranking` on the two-candidate example: totals
80 and 60, votes Winner (legacy) and Runner-up (committee). -/
theorem finalResults_ranking_witness :
    (finalResults [rB, rA]).Pairwise (fun a b => b.finalRank ≤ a.finalRank) ∧
    (finalResults [rB, rA]).Perm
      (([rB, rA].filter fun x => strIn "recommend" (pyLower x.stage1Rec)).map finalRankRow) ∧
    (rB.committeeVotes = "" → rB.evaluatorVote = "" →
      (finalRankRow rB).avgWeight = 0 ∧
      (finalRankRow rB).finalRank = round1 (rB.totalScore * (2/5))) ∧
    (rB.committeeVotes = "" → rB.evaluatorVote ≠ "" →
      (finalRankRow rB).avgWeight = round2 (vote_to_weight rB.evaluatorVote) ∧
      (finalRankRow rB).finalRank
        = round1 (rB.totalScore * (2/5) + (vote_to_weight rB.evaluatorVote * 100) * (3/5))) ∧
    (rB.committeeVotes ≠ "" →
      (finalRankRow rB).avgWeight
        = round2 ((((pySplit rB.committeeVotes ';').map fun part =>
              vote_to_weight (afterFirstColon part)).sum)
            / ((pySplit rB.committeeVotes ';').length)) ∧
      (finalRankRow rB).finalRank
        = round1 (rB.totalScore * (2/5)
          + (((((pySplit rB.committeeVotes ';').map fun part =>
                vote_to_weight (afterFirstColon part)).sum)
              / ((pySplit rB.committeeVotes ';').length) * 100) * (3/5)))) :=
  finalResults_ranking [rB, rA] rB

end BSC

namespace BSC

/-- Counterexample for C5 as stated: the recommended record `rA` has no
committee votes, so the claim predicts committee weight 0.0 and final rank
`80 × 0.4 = 32`, but the code falls back to the legacy Evaluator Vote
(`Winner`), giving average weight 1.0 and final rank 92. -/
theorem finalResults_no_committee_votes_cex :
    rA.committeeVotes = "" ∧
    (finalRankRow rA).avgWeight = 1 ∧
    (finalRankRow rA).finalRank = 92 ∧
    (1 : ℚ) ≠ 0 ∧
    round1 (rA.totalScore * (2/5)) = 32 ∧ (92 : ℚ) ≠ 32 := by
  have hv : vote_to_weight "Winner" = 1 := by
    have h1 : strIn "winner" (pyLower (pyStrip "Winner")) = true := rfl
    simp [vote_to_weight, h1]
  have hw : committeeWeights rA = [1] := by
    have hcv : rA.committeeVotes = "" := rfl
    have hev : rA.evaluatorVote = "Winner" := rfl
    simp [committeeWeights, hcv, hev, hv]
  have htot : rA.totalScore = 80 := rfl
  refine ⟨rfl, ?_, ?_, by norm_num, ?_, by norm_num⟩
  · simp only [finalRankRow, hw]
    norm_num [round2, round_eq]
  · simp only [finalRankRow, hw, htot]
    norm_num [round1, round_eq]
  · rw [htot]
    norm_num [round1, round_eq]

end BSC
